import Mathlib

/-!
Verification of the vRvoice realtime voice-command pipeline.

The definitions below are a shallow embedding of the Python sources:
* `src/vred_listener.py` — the dispatch server (`VREDHandler.handle`) and the
  main-thread executor (`_dispatch_actions`, `_derive_vset_name`);
* `src/modules/vred_client.py` — the dispatch client (`send_activate_vset`);
* `src/modules/nlu_engine.py` — the intent router (`get_command`, `semantic_match`);
* `src/main.py` — the bounded audio queue (`audio_callback`) and the
  chunk feed (`chunk_generator`).

External collaborators (the Qt timer, the actuator API `selectVariantSet`, the
network socket, the classifier and the embedding index) are modelled as
oracles passed in as parameters; everything the repository itself computes is
translated directly from the Python.
-/

namespace VRVoice

/-- A JSON object on the wire or in the action queue, restricted to the keys
the Python code ever reads via `msg.get(...)` / `action.get(...)`:
`action`, `vset_name`, `group`, `name`, `token`.  `none` models an absent key
(Python `dict.get` returning `None`). -/
structure MsgDict where
  action : Option String
  vset_name : Option String
  group : Option String
  name : Option String
  token : Option String
deriving DecidableEq

/-- The ASCII whitespace characters Python `str.strip()` removes
(space, tab, newline, carriage return, vertical tab, form feed). -/
def isPySpace (c : Char) : Bool :=
  c = ' ' ∨ c = '\t' ∨ c = '\n' ∨ c = '\r' ∨ c = '\x0b' ∨ c = '\x0c'

/-- Python `s.strip()`: drop leading and trailing whitespace. -/
def pyStrip (s : String) : String :=
  ⟨((s.data.dropWhile isPySpace).reverse.dropWhile isPySpace).reverse⟩

/-- Python `(d.get(k) or "").strip()`: an absent key (`None`) becomes `""`,
then surrounding whitespace is stripped.  (A present falsy string is `""`,
which also strips to `""`, so `Option.getD _ ""` is faithful.) -/
def stripField (o : Option String) : String :=
  pyStrip (o.getD "")

/-- `vred_listener._derive_vset_name(group, name)`.  The module constant
`USE_GROUP_IN_VSET_NAME` is passed in as the parameter `useGroup`
(Python truthiness of `group` is non-emptiness). -/
def deriveVsetName (useGroup : Bool) (group name : String) : String :=
  if useGroup = true ∧ group ≠ "" then group ++ ": " ++ name else name

/-- The module constant `USE_GROUP_IN_VSET_NAME = False` in `vred_listener.py`. -/
def USE_GROUP_IN_VSET_NAME : Bool := false

/-- `vred_listener._dispatch_actions`: one executor tick drains the queued
actions (modelled as the input list) against the de-dup state
`_last_activation : Option String`.  The actuator `selectVariantSet` is an
external call that may raise; the oracle `fails` says whether the call for a
given vset name raises.  The result is the final `_last_activation` together
with the list of actuator invocations performed, each recorded as
`(vset name, whether the call raised)`; a raised exception is caught by the
surrounding `try`/`except`, so the drain continues either way.  `ping` and
unknown actions fall through with no invocation and no state change. -/
def dispatchActions (fails : String → Bool) (useGroup : Bool)
    (last : Option String) : List MsgDict → Option String × List (String × Bool)
  | [] => (last, [])
  | a :: rest =>
    if a.action = some "activate_vset" then
      let vset_name := stripField a.vset_name
      if vset_name = "" then dispatchActions fails useGroup last rest
      else if last = some vset_name then dispatchActions fails useGroup last rest
      else
        let r := dispatchActions fails useGroup (some vset_name) rest
        (r.1, (vset_name, fails vset_name) :: r.2)
    else if a.action = some "activate_pair" then
      let name := stripField a.name
      if name = "" then dispatchActions fails useGroup last rest
      else
        let vset_name := deriveVsetName useGroup (stripField a.group) name
        if last = some vset_name then dispatchActions fails useGroup last rest
        else
          let r := dispatchActions fails useGroup (some vset_name) rest
          (r.1, (vset_name, fails vset_name) :: r.2)
    else
      dispatchActions fails useGroup last rest

/-- The derived actuator-facing name of an action, read off the same
field accesses `_dispatch_actions` performs: `some d` when the action is an
activation that reaches the de-dup check with derived name `d`, `none` when
the action is skipped before the de-dup check (missing name, `ping`,
unknown). -/
def derivedNameOf (useGroup : Bool) (a : MsgDict) : Option String :=
  if a.action = some "activate_vset" then
    let v := stripField a.vset_name
    if v = "" then none else some v
  else if a.action = some "activate_pair" then
    let n := stripField a.name
    if n = "" then none else some (deriveVsetName useGroup (stripField a.group) n)
  else none

/-- The action dict the dispatch server enqueues for `activate_pair`
(and the wire message shape the client sends). -/
def pairAction (group name : String) : MsgDict :=
  { action := some "activate_pair", vset_name := none,
    group := some group, name := some name, token := none }

/-- The action dict the dispatch server enqueues for `activate_vset`. -/
def vsetAction (v : String) : MsgDict :=
  { action := some "activate_vset", vset_name := some v,
    group := none, name := none, token := none }

/-- An action with no derived name (missing name, ping, unknown) is skipped:
no invocation, no state change. -/
theorem dispatch_cons_skip (fails : String → Bool) (useGroup : Bool)
    (last : Option String) (a : MsgDict) (rest : List MsgDict)
    (h : derivedNameOf useGroup a = none) :
    dispatchActions fails useGroup last (a :: rest) =
      dispatchActions fails useGroup last rest := by
  unfold derivedNameOf at h
  simp only [dispatchActions]
  split_ifs at h ⊢ <;> simp_all

/-- An activation whose derived name equals the current `_last_activation`
is suppressed: no invocation, no state change. -/
theorem dispatch_cons_dup (fails : String → Bool) (useGroup : Bool)
    (a : MsgDict) (d : String) (rest : List MsgDict)
    (h : derivedNameOf useGroup a = some d) :
    dispatchActions fails useGroup (some d) (a :: rest) =
      dispatchActions fails useGroup (some d) rest := by
  unfold derivedNameOf at h
  simp only [dispatchActions]
  split_ifs at h ⊢ <;> simp_all

/-- An activation whose derived name differs from the current
`_last_activation` invokes the actuator once and advances the state to its
derived name before the call, whether or not the call raises. -/
theorem dispatch_cons_new (fails : String → Bool) (useGroup : Bool)
    (last : Option String) (a : MsgDict) (d : String) (rest : List MsgDict)
    (h : derivedNameOf useGroup a = some d) (hl : last ≠ some d) :
    dispatchActions fails useGroup last (a :: rest) =
      ((dispatchActions fails useGroup (some d) rest).1,
        (d, fails d) :: (dispatchActions fails useGroup (some d) rest).2) := by
  unfold derivedNameOf at h
  simp only [dispatchActions]
  split_ifs at h ⊢ <;> simp_all

/-- C1: for every drained sequence of actions, an activation (either kind)
whose derived actuator-facing name equals the current `_last_activation` does
not invoke the actuator API; in particular, dispatching the same
`activate_pair` action twice in immediate succession results in exactly one
actuator invocation. -/
theorem c1_executor_dedup :
    (∀ (fails : String → Bool) (useGroup : Bool) (a : MsgDict) (d : String)
        (rest : List MsgDict),
      derivedNameOf useGroup a = some d →
      dispatchActions fails useGroup (some d) (a :: rest) =
        dispatchActions fails useGroup (some d) rest)
    ∧
    (∀ (fails : String → Bool) (useGroup : Bool) (last : Option String)
        (group name d : String),
      derivedNameOf useGroup (pairAction group name) = some d →
      last ≠ some d →
      (dispatchActions fails useGroup last
        [pairAction group name, pairAction group name]).2.length = 1) := by
  constructor
  · intro fails ug a d rest h
    exact dispatch_cons_dup fails ug a d rest h
  · intro fails ug last group name d h hl
    rw [dispatch_cons_new fails ug last _ d _ h hl,
        dispatch_cons_dup fails ug _ d _ h]
    rfl

/-- Witness for C1 at `{action: activate_pair, group: Interior, name: Red}`
with a non-raising actuator. -/
theorem c1_executor_dedup_witness :
    (dispatchActions (fun _ => false) false (some "Red")
        (pairAction "Interior" "Red" :: []) =
      dispatchActions (fun _ => false) false (some "Red") [])
    ∧ (dispatchActions (fun _ => false) false none
        [pairAction "Interior" "Red", pairAction "Interior" "Red"]).2.length = 1 :=
  ⟨c1_executor_dedup.1 (fun _ => false) false (pairAction "Interior" "Red") "Red" []
      (by decide),
   c1_executor_dedup.2 (fun _ => false) false none "Interior" "Red" "Red"
      (by decide) (by decide)⟩

/-- C10: the de-dup state is shared across action kinds: two consecutive
activations with the same derived name — whatever mix of `activate_vset` and
`activate_pair` they are — invoke the actuator exactly once, because both
kinds compare against and update the same `_last_activation`. -/
theorem c10_dedup_shared_across_kinds :
    ∀ (fails : String → Bool) (useGroup : Bool) (last : Option String)
      (a b : MsgDict) (d : String) (rest : List MsgDict),
      derivedNameOf useGroup a = some d →
      derivedNameOf useGroup b = some d →
      last ≠ some d →
      dispatchActions fails useGroup last (a :: b :: rest) =
        ((dispatchActions fails useGroup (some d) rest).1,
          (d, fails d) :: (dispatchActions fails useGroup (some d) rest).2) := by
  intro fails ug last a b d rest ha hb hl
  rw [dispatch_cons_new fails ug last a d (b :: rest) ha hl,
      dispatch_cons_dup fails ug b d rest hb]

/-- Witness for C10: `activate_vset "Red"` followed by
`activate_pair ("Interior", "Red")` (derived name also `"Red"` since
`USE_GROUP_IN_VSET_NAME` is false) — the second is suppressed. -/
theorem c10_dedup_shared_across_kinds_witness :
    dispatchActions (fun _ => false) false none
        [vsetAction "Red", pairAction "Interior" "Red"] =
      ((dispatchActions (fun _ => false) false (some "Red") []).1,
        ("Red", false) :: (dispatchActions (fun _ => false) false (some "Red") []).2) :=
  c10_dedup_shared_across_kinds (fun _ => false) false none
    (vsetAction "Red") (pairAction "Interior" "Red") "Red" []
    (by decide) (by decide) (by decide)

/-- C2 counterexample: with an actuator that raises on every call, draining
the same `activate_pair ("Interior", "Red")` twice performs one (raising)
invocation, yet `_last_activation` ends as `some "Red"`: the de-dup state was
advanced by the failed attempt and the resubmission of the same derived name
was suppressed — contrary to the claim that a failed activation leaves the
de-dup state untouched and remains retryable. -/
theorem c2_counterexample :
    dispatchActions (fun _ => true) false none
        [pairAction "Interior" "Red", pairAction "Interior" "Red"] =
      (some "Red", [("Red", true)]) := by
  decide

/-- C2 (amended): when the actuator call for derived name `d` raises, the
exception is caught and the drain continues with the remaining actions — but
`_last_activation` is assigned *before* the call, so it advances to `d` even
on failure, and an immediately resubmitted action with the same derived name
is suppressed rather than retried. -/
theorem c2_amended_failure_advances_dedup :
    ∀ (fails : String → Bool) (useGroup : Bool) (last : Option String)
      (a : MsgDict) (d : String) (rest : List MsgDict),
      derivedNameOf useGroup a = some d →
      last ≠ some d →
      fails d = true →
      (dispatchActions fails useGroup last (a :: rest) =
        ((dispatchActions fails useGroup (some d) rest).1,
          (d, true) :: (dispatchActions fails useGroup (some d) rest).2))
      ∧ (dispatchActions fails useGroup last [a, a]).2 = [(d, true)] := by
  intro fails ug last a d rest h hl hf
  constructor
  · rw [dispatch_cons_new fails ug last a d rest h hl, hf]
  · rw [dispatch_cons_new fails ug last a d [a] h hl,
        dispatch_cons_dup fails ug a d [] h, hf]
    rfl

/-- Witness for the amended C2 at `activate_pair ("Interior", "Red")` with an
always-raising actuator. -/
theorem c2_amended_failure_advances_dedup_witness :
    (dispatchActions (fun _ => true) false none
        (pairAction "Interior" "Red" :: []) =
      ((dispatchActions (fun _ => true) false (some "Red") []).1,
        ("Red", true) :: (dispatchActions (fun _ => true) false (some "Red") []).2))
    ∧ (dispatchActions (fun _ => true) false none
        [pairAction "Interior" "Red", pairAction "Interior" "Red"]).2 =
      [("Red", true)] :=
  c2_amended_failure_advances_dedup (fun _ => true) false none
    (pairAction "Interior" "Red") "Red" [] (by decide) (by decide) rfl

/-! ### Dispatch server: `vred_listener.VREDHandler.handle` -/

/-- A JSON ACK object written by `VREDHandler._send`, restricted to the keys
the server ever sets: `ok`, `error`, `pong`. -/
structure RespDict where
  ok : Bool
  error : Option String
  pong : Option Bool
deriving DecidableEq

/-- A JSON value stored under one key of a parsed wire object, as the
handler's reads can observe it.  The handler only ever (a) compares a value
with a string (`msg.get("action") == "..."`, `msg.get("token") != secret`) and
(b) runs `(msg.get(k) or "").strip()`; a non-string value is therefore fully
characterised by its Python truthiness: falsy values (`0`, `false`, `null`,
`[]`, `{}`, ...) short-circuit the `or` into `""`, truthy ones (`5`, `[1]`,
`true`, ...) reach `.strip()` and raise `AttributeError`. -/
inductive JVal
  | str (s : String)
  | nonStr (truthy : Bool)
deriving DecidableEq

/-- A parsed wire JSON object, restricted to the keys `VREDHandler.handle`
ever reads via `msg.get(...)`; `none` models an absent key and each present
key may hold any JSON value. -/
structure WireMsg where
  action : Option JVal
  vset_name : Option JVal
  group : Option JVal
  name : Option JVal
  token : Option JVal
deriving DecidableEq

/-- One raw line as drawn from the connection's `rfile`, classified by the
outcome of the `decode`/`strip`/`json.loads` prelude of `VREDHandler.handle`:
* `undecodable` — `raw_line.decode("utf-8")` raises (e.g. the bytes
  `b"\xff\n"`); caught by the inner `try`, answered `invalid_json`;
* `blank` — decodes and strips to the empty string (e.g. `b"\n"`);
* `badJson` — non-blank but `json.loads` raises (e.g. `b"not json\n"`);
* `nonDictJson` — `json.loads` succeeds but yields a non-object (a list,
  string, number, boolean or null, e.g. `b"[1]\n"`), so the first
  `msg.get(...)` raises `AttributeError` outside the inner `try`;
* `jsonMsg m` — parses to the JSON object `m`. -/
inductive LineContent
  | undecodable
  | blank
  | badJson
  | nonDictJson
  | jsonMsg (m : WireMsg)
deriving DecidableEq

/-- Python `(msg.get(k) or "").strip()` on a wire value: an absent key or a
falsy value becomes `""`; a string is stripped; a truthy non-string raises
`AttributeError` on `.strip()`, modelled as `none`. -/
def stripWireField : Option JVal → Option String
  | none => some ""
  | some (.str s) => some (pyStrip s)
  | some (.nonStr true) => none
  | some (.nonStr false) => some ""

/-- The action-validation branches of `VREDHandler.handle` for a parsed,
authorized message: the ACKs sent, the actions enqueued, and whether the
branch raised outside the inner `try` (an `AttributeError` from stripping a
truthy non-string field), in the source's evaluation order (`group` is
stripped before `name` in `activate_pair`).  A non-string `action` value
never equals any of the three action strings, so it falls to
`unknown_action`. -/
def processWire (m : WireMsg) : List RespDict × List MsgDict × Bool :=
  if m.action = some (JVal.str "activate_vset") then
    match stripWireField m.vset_name with
    | none => ([], [], true)
    | some vset_name =>
      if vset_name = "" then ([⟨false, some "missing_vset_name", none⟩], [], false)
      else ([⟨true, none, none⟩],
        [{ action := some "activate_vset", vset_name := some vset_name,
           group := none, name := none, token := none }], false)
  else if m.action = some (JVal.str "activate_pair") then
    match stripWireField m.group with
    | none => ([], [], true)
    | some group =>
      match stripWireField m.name with
      | none => ([], [], true)
      | some name =>
        if name = "" then ([⟨false, some "missing_name", none⟩], [], false)
        else ([⟨true, none, none⟩], [pairAction group name], false)
  else if m.action = some (JVal.str "ping") then
    ([⟨true, none, some true⟩], [], false)
  else ([⟨false, some "unknown_action", none⟩], [], false)

/-- One iteration of the `for raw_line in self.rfile` loop: the ACK lines
sent for this raw line (in order), the actions enqueued, and whether the
iteration raised outside the inner `try`.  `secret` is the module constant
`SHARED_SECRET` (`none` disables the token check); `msg.get("token") !=
SHARED_SECRET` holds for an absent token, a non-string token, and any string
other than the secret, none of which raises. -/
def handleLine (secret : Option String) :
    LineContent → List RespDict × List MsgDict × Bool
  | .undecodable => ([⟨false, some "invalid_json", none⟩], [], false)
  | .badJson => ([⟨false, some "invalid_json", none⟩], [], false)
  | .blank => ([], [], false)
  | .nonDictJson => ([], [], true)
  | .jsonMsg m =>
    match secret with
    | some s =>
      if m.token ≠ some (JVal.str s) then
        ([⟨false, some "unauthorized", none⟩], [], false)
      else processWire m
    | none => processWire m

/-- `VREDHandler.handle` over a whole connection: the lines arrive in order
and each is handled to completion (ACKs written and flushed) before the next
is read.  A line that raises outside the inner `try` is caught only by the
outer `except` around the whole loop, which logs and returns: the connection
closes and the remaining lines are never processed (final flag `true`). -/
def handleLines (secret : Option String) :
    List LineContent → List RespDict × List MsgDict × Bool
  | [] => ([], [], false)
  | l :: rest =>
    if (handleLine secret l).2.2 then handleLine secret l
    else
      ((handleLine secret l).1 ++ (handleLines secret rest).1,
       (handleLine secret l).2.1 ++ (handleLines secret rest).2.1,
       (handleLines secret rest).2.2)

/-- On any non-crashing path `processWire` sends exactly one ACK, and on any
crashing path it sends none (the `AttributeError` fires before `_send`). -/
theorem processWire_ack_count (m : WireMsg) :
    ((processWire m).2.2 = true → (processWire m).1 = [])
    ∧ ((processWire m).2.2 = false → (processWire m).1.length = 1) := by
  unfold processWire
  split_ifs with h1 h2 h3
  · cases hv : stripWireField m.vset_name with
    | none => simp [hv]
    | some v => simp only [hv]; split_ifs <;> simp
  · cases hg : stripWireField m.group with
    | none => simp [hg]
    | some g =>
      cases hn : stripWireField m.name with
      | none => simp [hg, hn]
      | some n => simp only [hg, hn]; split_ifs <;> simp
  · simp
  · simp

/-- C4 counterexample: a received line that is blank (e.g. the bytes `b"\n"`,
which decode and strip to the empty string) is skipped by
`if not line: continue` with no acknowledgment at all — refuting "for every
line received the handler sends exactly one acknowledgment line". -/
theorem c4_counterexample :
    handleLines none [LineContent.blank] = ([], [], false) := by
  decide

/-- C4 (amended): each line is handled to completion before the next, so
acknowledgments appear in request-line order; a non-blank line whose handling
does not raise outside the inner `try` receives exactly one acknowledgment; a
blank line is skipped with no acknowledgment; and a line that raises outside
the inner `try` (it parses to a non-object, or to an object whose selected
branch strips a truthy non-string field) receives no acknowledgment and
closes the connection, leaving the remaining lines unprocessed. -/
theorem c4_amended_one_ack_unless_blank_or_crash :
    ∀ (secret : Option String) (l : LineContent) (rest : List LineContent),
      ((handleLine secret l).2.2 = false →
        handleLines secret (l :: rest) =
          ((handleLine secret l).1 ++ (handleLines secret rest).1,
           (handleLine secret l).2.1 ++ (handleLines secret rest).2.1,
           (handleLines secret rest).2.2))
      ∧ ((handleLine secret l).2.2 = true →
          (handleLine secret l).1 = []
          ∧ handleLines secret (l :: rest) = handleLine secret l)
      ∧ (l ≠ .blank → (handleLine secret l).2.2 = false →
          (handleLine secret l).1.length = 1)
      ∧ (handleLine secret .blank).1 = [] := by
  intro secret l rest
  refine ⟨?_, ?_, ?_, rfl⟩
  · intro h
    simp [handleLines, h]
  · intro h
    refine ⟨?_, by simp [handleLines, h]⟩
    cases l with
    | undecodable => simp [handleLine] at h
    | badJson => simp [handleLine] at h
    | blank => simp [handleLine] at h
    | nonDictJson => rfl
    | jsonMsg m =>
      cases secret with
      | none => exact (processWire_ack_count m).1 h
      | some s =>
        by_cases ht : m.token = some (JVal.str s)
        · simp only [handleLine, ht] at h ⊢
          simpa using (processWire_ack_count m).1 (by simpa using h)
        · simp [handleLine, ht] at h
  · intro hbl h
    cases l with
    | undecodable => rfl
    | badJson => rfl
    | blank => exact absurd rfl hbl
    | nonDictJson => simp [handleLine] at h
    | jsonMsg m =>
      cases secret with
      | none => exact (processWire_ack_count m).2 h
      | some s =>
        by_cases ht : m.token = some (JVal.str s)
        · simp only [handleLine, ht] at h ⊢
          simpa using (processWire_ack_count m).2 (by simpa using h)
        · simp [handleLine, ht]

/-- Witness for the amended C4: a malformed line followed by a valid ping
(each one ACK, in order); a non-object line `[1]` that closes the connection
with no ACK, dropping a pipelined ping behind it; an object with a truthy
non-string `vset_name` (`{"action":"activate_vset","vset_name":5}`) doing the
same; and a blank line receiving none. -/
theorem c4_amended_one_ack_unless_blank_or_crash_witness :
    (handleLines none [LineContent.badJson,
        LineContent.jsonMsg ⟨some (JVal.str "ping"), none, none, none, none⟩] =
      ((handleLine none LineContent.badJson).1 ++
        (handleLines none [LineContent.jsonMsg
          ⟨some (JVal.str "ping"), none, none, none, none⟩]).1,
       (handleLine none LineContent.badJson).2.1 ++
        (handleLines none [LineContent.jsonMsg
          ⟨some (JVal.str "ping"), none, none, none, none⟩]).2.1,
       (handleLines none [LineContent.jsonMsg
          ⟨some (JVal.str "ping"), none, none, none, none⟩]).2.2))
    ∧ ((handleLine none LineContent.nonDictJson).1 = []
      ∧ handleLines none [LineContent.nonDictJson,
          LineContent.jsonMsg ⟨some (JVal.str "ping"), none, none, none, none⟩] =
        handleLine none LineContent.nonDictJson)
    ∧ ((handleLine none (LineContent.jsonMsg
          ⟨some (JVal.str "activate_vset"), some (JVal.nonStr true),
            none, none, none⟩)).1 = []
      ∧ handleLines none [LineContent.jsonMsg
          ⟨some (JVal.str "activate_vset"), some (JVal.nonStr true),
            none, none, none⟩,
          LineContent.jsonMsg ⟨some (JVal.str "ping"), none, none, none, none⟩] =
        handleLine none (LineContent.jsonMsg
          ⟨some (JVal.str "activate_vset"), some (JVal.nonStr true),
            none, none, none⟩))
    ∧ (handleLine none (LineContent.jsonMsg
        ⟨some (JVal.str "ping"), none, none, none, none⟩)).1.length = 1
    ∧ (handleLine none LineContent.blank).1 = [] :=
  ⟨(c4_amended_one_ack_unless_blank_or_crash none LineContent.badJson
      [LineContent.jsonMsg ⟨some (JVal.str "ping"), none, none, none, none⟩]).1
      (by decide),
   (c4_amended_one_ack_unless_blank_or_crash none LineContent.nonDictJson
      [LineContent.jsonMsg ⟨some (JVal.str "ping"), none, none, none, none⟩]).2.1
      (by decide),
   (c4_amended_one_ack_unless_blank_or_crash none
      (LineContent.jsonMsg ⟨some (JVal.str "activate_vset"),
        some (JVal.nonStr true), none, none, none⟩)
      [LineContent.jsonMsg ⟨some (JVal.str "ping"), none, none, none, none⟩]).2.1
      (by decide),
   (c4_amended_one_ack_unless_blank_or_crash none
      (LineContent.jsonMsg ⟨some (JVal.str "ping"), none, none, none, none⟩)
      []).2.2.1 (by decide) (by decide),
   (c4_amended_one_ack_unless_blank_or_crash none LineContent.blank []).2.2.2⟩

/-- C5: a line that is not decodable as JSON (whether the UTF-8 decode or
`json.loads` raises) is answered `{"ok": false, "error": "invalid_json"}`,
enqueues no action, and the connection stays open: the remaining lines are
processed exactly as they would be on their own. -/
theorem c5_invalid_json_rejected_connection_open :
    ∀ (secret : Option String) (rest : List LineContent),
      handleLines secret (LineContent.badJson :: rest) =
        (⟨false, some "invalid_json", none⟩ :: (handleLines secret rest).1,
          (handleLines secret rest).2)
      ∧ handleLines secret (LineContent.undecodable :: rest) =
        (⟨false, some "invalid_json", none⟩ :: (handleLines secret rest).1,
          (handleLines secret rest).2) := by
  intro secret rest
  exact ⟨rfl, rfl⟩

/-- C8: with a shared secret configured, a parsed message whose `token` field
is absent or different from the secret (including any non-string token, since
`msg.get("token") != SHARED_SECRET` compares without raising) is answered
`{"ok": false, "error": "unauthorized"}` and enqueues no action; the rest of
the connection is processed unchanged. -/
theorem c8_unauthorized_no_enqueue :
    ∀ (s : String) (m : WireMsg) (rest : List LineContent),
      m.token ≠ some (JVal.str s) →
      handleLines (some s) (LineContent.jsonMsg m :: rest) =
        (⟨false, some "unauthorized", none⟩ :: (handleLines (some s) rest).1,
          (handleLines (some s) rest).2) := by
  intro s m rest h
  simp [handleLines, handleLine, h]

/-- Witness for C8: secret `"mysecret"`, a ping request omitting the token. -/
theorem c8_unauthorized_no_enqueue_witness :
    handleLines (some "mysecret")
        [LineContent.jsonMsg ⟨some (JVal.str "ping"), none, none, none, none⟩] =
      ([⟨false, some "unauthorized", none⟩], [], false) := by
  have h := c8_unauthorized_no_enqueue "mysecret"
    ⟨some (JVal.str "ping"), none, none, none, none⟩ [] (by decide)
  simpa using h

/-! ### Dispatch client: `modules/vred_client.send_activate_vset` -/

/-- The acknowledgment bytes received by `s.recv(4096)`, classified by the
outcome of `json.loads(ack.decode("utf-8").strip())`: either they parse to a
JSON object `r`, or decoding/parsing raises (also covers an empty read after
the peer closed). -/
inductive AckPayload
  | parsable (r : RespDict)
  | unparsable
deriving DecidableEq

/-- What the network does on one connection attempt by the client:
`raises e` — `socket.create_connection`, `sendall`, or `recv` raises the
exception `e` (connection refused, network timeout, reset, ...);
`ackBytes p` — the round trip succeeds and `recv` returns `p`. -/
inductive NetResult
  | raises (e : String)
  | ackBytes (p : AckPayload)
deriving DecidableEq

/-- The wire message `send_activate_vset` serializes: a fixed
`activate_pair` action with the given group and name; the token key is set
only when `token` is truthy (present and non-empty). -/
def clientWireMsg (group name : String) (token : Option String) : MsgDict :=
  { action := some "activate_pair", vset_name := none,
    group := some group, name := some name,
    token := if token.getD "" ≠ "" then token else none }

/-- `modules/vred_client.send_activate_vset`.  The network is the oracle
`net : Nat → NetResult`, giving the outcome of the `n`-th connection attempt;
the implementation makes exactly one attempt (`net 0`).  `Except.error e`
models an exception `e` propagating to the caller; `Except.ok r` models a
normal return.  Only the `json.loads` of the acknowledgment sits inside a
`try`/`except` in the source, where failure returns
`{"ok": False, "error": "invalid_ack"}`. -/
def send_activate_vset (net : Nat → NetResult) (group name : String)
    (token : Option String) : Except String RespDict :=
  match net 0 with
  | .raises e => .error e
  | .ackBytes (.parsable r) => .ok r
  | .ackBytes .unparsable => .ok ⟨false, some "invalid_ack", none⟩

/-- C3 counterexample: when the connection attempt raises (e.g. the actuator
host is unreachable), `send_activate_vset` propagates the exception instead of
returning a structured `{ok: false, error: ...}` value — the `try` in the
source wraps only the `json.loads` of the acknowledgment, not the socket
operations.  This refutes "any network or decode failure results in a
returned structured value rather than a raised exception". -/
theorem c3_counterexample :
    send_activate_vset (fun _ => NetResult.raises "ConnectionRefusedError")
        "Interior" "Red" none =
      Except.error "ConnectionRefusedError" := rfl

/-- C3 (amended): an unparsable acknowledgment is returned as the structured
value `{ok: false, error: "invalid_ack"}` without raising; the operation never
retries (its result depends only on the first connection attempt); a network
failure (connection failure or timeout) propagates as a raised exception. -/
theorem c3_amended_decode_failure_structured_no_retry :
    (∀ (net : Nat → NetResult) (group name : String) (token : Option String),
      net 0 = NetResult.ackBytes AckPayload.unparsable →
      send_activate_vset net group name token =
        Except.ok ⟨false, some "invalid_ack", none⟩)
    ∧ (∀ (net net' : Nat → NetResult) (group name : String) (token : Option String),
      net 0 = net' 0 →
      send_activate_vset net group name token =
        send_activate_vset net' group name token)
    ∧ (∀ (net : Nat → NetResult) (e group name : String) (token : Option String),
      net 0 = NetResult.raises e →
      send_activate_vset net group name token = Except.error e) := by
  refine ⟨?_, ?_, ?_⟩
  · intro net group name token h
    simp [send_activate_vset, h]
  · intro net net' group name token h
    simp [send_activate_vset, h]
  · intro net e group name token h
    simp [send_activate_vset, h]

/-- Witness for the amended C3: a garbled acknowledgment on attempt 0, two
networks agreeing on attempt 0 but not on attempt 1, and a refused
connection. -/
theorem c3_amended_decode_failure_structured_no_retry_witness :
    (send_activate_vset (fun _ => NetResult.ackBytes AckPayload.unparsable)
        "Interior" "Red" none =
      Except.ok ⟨false, some "invalid_ack", none⟩)
    ∧ (send_activate_vset (fun _ => NetResult.ackBytes AckPayload.unparsable)
        "Interior" "Red" none =
      send_activate_vset
        (fun n => if n = 0 then NetResult.ackBytes AckPayload.unparsable
          else NetResult.raises "timeout") "Interior" "Red" none)
    ∧ (send_activate_vset (fun _ => NetResult.raises "timeout")
        "Interior" "Red" none = Except.error "timeout") :=
  ⟨c3_amended_decode_failure_structured_no_retry.1
      (fun _ => NetResult.ackBytes AckPayload.unparsable) "Interior" "Red" none rfl,
   c3_amended_decode_failure_structured_no_retry.2.1
      (fun _ => NetResult.ackBytes AckPayload.unparsable)
      (fun n => if n = 0 then NetResult.ackBytes AckPayload.unparsable
        else NetResult.raises "timeout") "Interior" "Red" none rfl,
   c3_amended_decode_failure_structured_no_retry.2.2
      (fun _ => NetResult.raises "timeout") "timeout" "Interior" "Red" none rfl⟩

/-! ### Intent router: `modules/nlu_engine.semantic_match` / `get_command`

The classifier and the embedding index are external collaborators: `classify`
models `classify_intent` (`text ↦ (top label, confidence)`) and `nearest`
models the FAISS lookup inside `semantic_match` (`text ↦ (best catalog
phrase, best cosine score)`; the phrase returned is always one of the index's
catalog phrases, i.e. a key of the command map).  Scores are embedded as
rationals; the source compares IEEE doubles with the same `>=` order. -/

/-- `modules/nlu_engine.semantic_match`: accept the nearest catalog phrase
iff its similarity is at least `0.65` (inclusive); otherwise
`(None, None)`. -/
def semantic_match (nearest : String → String × ℚ) (text : String) :
    Option String × Option ℚ :=
  if (0.65 : ℚ) ≤ (nearest text).2 then
    (some (nearest text).1, some (nearest text).2)
  else (none, none)

/-- `modules/nlu_engine.get_command`: intent classification first (accepted
iff confidence is at least `0.75` (inclusive) and the label is a command-map
key), else the semantic fallback (Python `if match:` is falsy for `None` and
for the empty string), else no match.  `commandMap` is the command-map lookup
(`none` for a missing key); commands are `(group, name)` pairs as consumed in
`main.py`. -/
def get_command (classify nearest : String → String × ℚ)
    (commandMap : String → Option (String × String)) (text : String) :
    Option (String × String) × Option String × Option ℚ :=
  if (0.75 : ℚ) ≤ (classify text).2 ∧ (commandMap (classify text).1).isSome then
    (commandMap (classify text).1, some (classify text).1, some (classify text).2)
  else
    match semantic_match nearest text with
    | (some p, s) => if p ≠ "" then (commandMap p, some p, s) else (none, none, none)
    | (none, _) => (none, none, none)

/-- C6: the router accepts the classifier's top label iff its confidence is
at least `0.75` (inclusive) and the label is in the catalog, returning that
catalog command immediately; otherwise it accepts the nearest catalog phrase
iff its similarity is at least `0.65` (inclusive), returning the command
mapped to that phrase with the matched phrase and score; otherwise it returns
no match. -/
theorem c6_router_inclusive_thresholds :
    ∀ (classify nearest : String → String × ℚ)
      (commandMap : String → Option (String × String)) (text : String),
      ((0.75 : ℚ) ≤ (classify text).2 → (commandMap (classify text).1).isSome →
        get_command classify nearest commandMap text =
          (commandMap (classify text).1, some (classify text).1,
            some (classify text).2))
      ∧ (¬ ((0.75 : ℚ) ≤ (classify text).2 ∧ (commandMap (classify text).1).isSome) →
          (0.65 : ℚ) ≤ (nearest text).2 → (nearest text).1 ≠ "" →
        get_command classify nearest commandMap text =
          (commandMap (nearest text).1, some (nearest text).1,
            some (nearest text).2))
      ∧ (¬ ((0.75 : ℚ) ≤ (classify text).2 ∧ (commandMap (classify text).1).isSome) →
          (nearest text).2 < (0.65 : ℚ) →
        get_command classify nearest commandMap text = (none, none, none)) := by
  intro classify nearest commandMap text
  refine ⟨?_, ?_, ?_⟩
  · intro hconf hlabel
    simp [get_command, hconf, hlabel]
  · intro hno hsim hp
    simp [get_command, semantic_match, hno, hsim, hp]
  · intro hno hsim
    simp [get_command, semantic_match, hno, not_le.mpr hsim]

/-- Witness for C6: a catalog `{turn_red ↦ (Interior, Red),
"activate red interior" ↦ (Interior, Red)}`; route 1 at confidence exactly
`0.75`; route 2 at confidence `0.4` and similarity exactly `0.65`; route 3 at
similarity `0.4`. -/
theorem c6_router_inclusive_thresholds_witness :
    (get_command (fun _ => ("turn_red", 0.75))
        (fun _ => ("activate red interior", 0.4))
        (fun l => if l = "turn_red" ∨ l = "activate red interior"
          then some ("Interior", "Red") else none)
        "turn on red interior light" =
      (some ("Interior", "Red"), some "turn_red", some 0.75))
    ∧ (get_command (fun _ => ("turn_red", 0.4))
        (fun _ => ("activate red interior", 0.65))
        (fun l => if l = "turn_red" ∨ l = "activate red interior"
          then some ("Interior", "Red") else none)
        "turn on red interior light" =
      (some ("Interior", "Red"), some "activate red interior", some 0.65))
    ∧ (get_command (fun _ => ("turn_red", 0.4))
        (fun _ => ("activate red interior", 0.4))
        (fun l => if l = "turn_red" ∨ l = "activate red interior"
          then some ("Interior", "Red") else none)
        "turn on red interior light" = (none, none, none)) := by
  refine ⟨?_, ?_, ?_⟩
  · have h := (c6_router_inclusive_thresholds (fun _ => ("turn_red", 0.75))
      (fun _ => ("activate red interior", 0.4))
      (fun l => if l = "turn_red" ∨ l = "activate red interior"
        then some ("Interior", "Red") else none)
      "turn on red interior light").1 (le_refl _) (by simp)
    simpa using h
  · have h := (c6_router_inclusive_thresholds (fun _ => ("turn_red", 0.4))
      (fun _ => ("activate red interior", 0.65))
      (fun l => if l = "turn_red" ∨ l = "activate red interior"
        then some ("Interior", "Red") else none)
      "turn on red interior light").2.1 (by norm_num) (le_refl _) (by simp)
    simpa using h
  · have h := (c6_router_inclusive_thresholds (fun _ => ("turn_red", 0.4))
      (fun _ => ("activate red interior", 0.4))
      (fun l => if l = "turn_red" ∨ l = "activate red interior"
        then some ("Interior", "Red") else none)
      "turn on red interior light").2.2 (by norm_num) (by norm_num)
    simpa using h

/-! ### Bounded audio queue: `main.audio_queue` / `main.audio_callback`

`audio_queue = queue.Queue(maxsize=50)` holds raw PCM byte chunks; a frame is
embedded as a `List Nat` of bytes.  A CPython `Queue` is full iff
`0 < maxsize ≤ qsize`. -/

/-- A bounded FIFO queue (`queue.Queue(maxsize)`); `items` head is the oldest
element. -/
structure BQueue (α : Type) where
  maxsize : Nat
  items : List α
deriving DecidableEq

/-- `main.audio_queue`'s capacity: `queue.Queue(maxsize=50)`. -/
def AUDIO_QUEUE_MAXSIZE : Nat := 50

/-- `main.audio_callback`: `put_nowait` wrapped in `try/except queue.Full` —
on a full queue the newest incoming frame is dropped and a warning printed;
the callback never blocks and never raises.  Returns the new queue and
whether the frame was dropped. -/
def audio_callback {α : Type} (q : BQueue α) (x : α) : BQueue α × Bool :=
  if 0 < q.maxsize ∧ q.maxsize ≤ q.items.length then (q, true)
  else ({ q with items := q.items ++ [x] }, false)

/-- `audio_queue.get` as seen by the consumer: the oldest element, if any. -/
def queueGet {α : Type} (q : BQueue α) : Option (α × BQueue α) :=
  match q.items with
  | [] => none
  | x :: rest => some (x, { q with items := rest })

/-- One interleaving event at the queue: the capture callback pushing a frame,
or the consumer attempting a pop. -/
inductive QEvent (α : Type)
  | push (x : α)
  | pop
deriving DecidableEq

/-- One event applied to (queue, frames consumed so far): a push goes through
`audio_callback`; a pop takes the oldest frame when one is available. -/
def qstep {α : Type} (s : BQueue α × List α) : QEvent α → BQueue α × List α
  | .push x => ((audio_callback s.1 x).1, s.2)
  | .pop =>
    match queueGet s.1 with
    | some (x, q') => (q', s.2 ++ [x])
    | none => (s.1, s.2)

/-- Run an interleaving of pushes and pops from a starting state. -/
def runQueue {α : Type} (s : BQueue α × List α) :
    List (QEvent α) → BQueue α × List α
  | [] => s
  | e :: evs => runQueue (qstep s e) evs

/-- The frames pushed by an event sequence, in push order. -/
def pushedOf {α : Type} : List (QEvent α) → List α
  | [] => []
  | .push x :: evs => x :: pushedOf evs
  | .pop :: evs => pushedOf evs

theorem qstep_maxsize {α : Type} (s : BQueue α × List α) (e : QEvent α) :
    (qstep s e).1.maxsize = s.1.maxsize := by
  rcases s with ⟨⟨m, items⟩, out⟩
  cases e with
  | push x =>
    simp only [qstep, audio_callback]
    split_ifs <;> rfl
  | pop => cases items <;> rfl

theorem qstep_size_le {α : Type} (s : BQueue α × List α) (e : QEvent α)
    (hpos : 0 < s.1.maxsize) (hle : s.1.items.length ≤ s.1.maxsize) :
    (qstep s e).1.items.length ≤ s.1.maxsize := by
  rcases s with ⟨⟨m, items⟩, out⟩
  cases e with
  | push x =>
    simp only [qstep, audio_callback]
    split_ifs with h
    · exact hle
    · simp only at hpos hle ⊢
      push_neg at h
      have := h hpos
      simp only [List.length_append, List.length_singleton]
      omega
  | pop =>
    cases items with
    | nil => exact hle
    | cons a rest =>
      simp only [qstep, queueGet, List.length_cons] at *
      omega

theorem qstep_fifo {α : Type} (s : BQueue α × List α) (e : QEvent α) :
    ((qstep s e).2 ++ (qstep s e).1.items).Sublist
      ((s.2 ++ s.1.items) ++ pushedOf [e]) := by
  rcases s with ⟨⟨m, items⟩, out⟩
  cases e with
  | push x =>
    simp only [qstep, audio_callback, pushedOf]
    split_ifs with h
    · simp [List.append_assoc, List.sublist_append_left]
    · simp [List.append_assoc]
  | pop =>
    cases items with
    | nil => simp [qstep, queueGet, pushedOf]
    | cons a rest => simp [qstep, queueGet, pushedOf, List.append_assoc]

theorem runQueue_maxsize {α : Type} (evs : List (QEvent α))
    (s : BQueue α × List α) :
    (runQueue s evs).1.maxsize = s.1.maxsize := by
  induction evs generalizing s with
  | nil => rfl
  | cons e evs ih => rw [runQueue, ih, qstep_maxsize]

theorem runQueue_size_le {α : Type} (evs : List (QEvent α))
    (s : BQueue α × List α) (hpos : 0 < s.1.maxsize)
    (hle : s.1.items.length ≤ s.1.maxsize) :
    (runQueue s evs).1.items.length ≤ s.1.maxsize := by
  induction evs generalizing s with
  | nil => exact hle
  | cons e evs ih =>
    rw [runQueue]
    have h := ih (qstep s e) (by rw [qstep_maxsize]; exact hpos)
      (by rw [qstep_maxsize]; exact qstep_size_le s e hpos hle)
    rwa [qstep_maxsize] at h

theorem runQueue_fifo {α : Type} (evs : List (QEvent α))
    (s : BQueue α × List α) :
    ((runQueue s evs).2 ++ (runQueue s evs).1.items).Sublist
      ((s.2 ++ s.1.items) ++ pushedOf evs) := by
  induction evs generalizing s with
  | nil => simp [runQueue, pushedOf]
  | cons e evs ih =>
    rw [runQueue]
    refine (ih (qstep s e)).trans ?_
    have h2 := List.Sublist.append (qstep_fifo s e)
      (List.Sublist.refl (pushedOf evs))
    cases e <;> simpa [pushedOf, List.append_assoc] using h2

/-- C7: for every interleaving of capture pushes and consumer pops starting
from the empty audio queue with a positive capacity, the queue size never
exceeds the capacity, the frames consumed followed by the frames still queued
are a subsequence of the pushed frames in push (FIFO) order — no reordering,
only drops — and the producer on a full queue leaves the queue unchanged and
reports a dropped frame (it never blocks and never raises). -/
theorem c7_bounded_queue_fifo_drop_newest :
    ∀ (cap : Nat) (evs : List (QEvent (List Nat))),
      0 < cap →
      ((runQueue (⟨cap, []⟩, []) evs).1.items.length ≤ cap
      ∧ ((runQueue (⟨cap, []⟩, []) evs).2 ++
          (runQueue (⟨cap, []⟩, []) evs).1.items).Sublist (pushedOf evs)
      ∧ ∀ (q : BQueue (List Nat)) (x : List Nat),
          0 < q.maxsize → q.maxsize ≤ q.items.length →
          audio_callback q x = (q, true)) := by
  intro cap evs hpos
  refine ⟨runQueue_size_le evs (⟨cap, []⟩, []) hpos (by simp), ?_, ?_⟩
  · simpa using runQueue_fifo evs (⟨cap, []⟩, [])
  · intro q x h1 h2
    simp [audio_callback, h1, h2]

/-- Witness for C7: capacity 2, pushes of frames `[1]`, `[2]`, `[3]` (the
third overflows and is dropped) and one pop. -/
theorem c7_bounded_queue_fifo_drop_newest_witness :
    ((runQueue (⟨2, []⟩, [])
        [QEvent.push [1], QEvent.push [2], QEvent.push [3],
          QEvent.pop]).1.items.length ≤ 2
    ∧ ((runQueue (⟨2, []⟩, [])
        [QEvent.push [1], QEvent.push [2], QEvent.push [3], QEvent.pop]).2 ++
        (runQueue (⟨2, []⟩, [])
          [QEvent.push [1], QEvent.push [2], QEvent.push [3],
            QEvent.pop]).1.items).Sublist
        (pushedOf [QEvent.push [1], QEvent.push [2], QEvent.push [3],
          QEvent.pop])
    ∧ audio_callback (⟨2, [[1], [2]]⟩ : BQueue (List Nat)) [3] =
        (⟨2, [[1], [2]]⟩, true)) :=
  ⟨(c7_bounded_queue_fifo_drop_newest 2 _ (by decide)).1,
   (c7_bounded_queue_fifo_drop_newest 2 _ (by decide)).2.1,
   (c7_bounded_queue_fifo_drop_newest 2 [] (by decide)).2.2
      ⟨2, [[1], [2]]⟩ [3] (by decide) (by decide)⟩

/-! ### Chunk feed: `main.chunk_generator`

`chunk_generator` polls `audio_queue.get(timeout=0.5)` in a loop guarded by
`while not shutdown_event.is_set()`; a `queue.Empty` timeout is caught and the
loop re-polls; a non-empty chunk is yielded.  The model runs the loop for
`fuel` iterations against the shutdown flag `shutdown i` observed at the
`i`-th loop check and the current queue contents (head = oldest); a poll on an
empty queue is a timeout.  Result: the chunks yielded, the frames still
queued, and whether the generator returned (`true`) or is still running when
the fuel runs out (`false`). -/
def chunk_generator (shutdown : Nat → Bool) :
    Nat → Nat → List (List Nat) → List (List Nat) × List (List Nat) × Bool
  | 0, _, q => ([], q, false)
  | fuel + 1, i, q =>
    if shutdown i then ([], q, true)
    else
      match q with
      | [] => chunk_generator shutdown fuel (i + 1) []
      | c :: rest =>
        let r := chunk_generator shutdown fuel (i + 1) rest
        (if c ≠ [] then c :: r.1 else r.1, r.2.1, r.2.2)

/-- C9 counterexample: with the shutdown flag already set and one frame still
queued, the generator returns immediately, yielding nothing and leaving the
frame in the queue — it does *not* drain the queued frames before stopping,
refuting "once the shutdown flag is set ... it drains the queued frames and
then stops". -/
theorem c9_counterexample :
    chunk_generator (fun _ => true) 5 0 [[1]] = ([], [[1]], true) := by
  decide

/-- C9 (amended): the sequence is infinite while the shutdown flag is unset —
in particular a queue-poll timeout (empty queue) re-polls rather than
terminating — and once the flag is set the generator stops at the next loop
check, yielding nothing further and leaving any still-queued frames
undrained. -/
theorem c9_amended_infinite_until_shutdown_stops_without_drain :
    (∀ (shutdown : Nat → Bool) (fuel i : Nat) (q : List (List Nat)),
      (∀ j, shutdown j = false) →
      (chunk_generator shutdown fuel i q).2.2 = false)
    ∧ (∀ (shutdown : Nat → Bool) (fuel i : Nat),
      shutdown i = false →
      chunk_generator shutdown (fuel + 1) i [] =
        chunk_generator shutdown fuel (i + 1) [])
    ∧ (∀ (shutdown : Nat → Bool) (fuel i : Nat) (q : List (List Nat)),
      shutdown i = true →
      chunk_generator shutdown (fuel + 1) i q = ([], q, true)) := by
  refine ⟨?_, ?_, ?_⟩
  · intro shutdown fuel
    induction fuel with
    | zero => intro i q _; rfl
    | succ fuel ih =>
      intro i q hoff
      cases q with
      | nil => simp [chunk_generator, hoff i, ih (i + 1) [] hoff]
      | cons c rest => simp [chunk_generator, hoff i, ih (i + 1) rest hoff]
  · intro shutdown fuel i hoff
    simp [chunk_generator, hoff]
  · intro shutdown fuel i q hon
    simp [chunk_generator, hon]

/-- Witness for the amended C9: a never-set flag over 3 iterations with a
queued frame (still running), a timeout re-poll, and an immediately-set flag
(stops with the queue undrained). -/
theorem c9_amended_infinite_until_shutdown_stops_without_drain_witness :
    ((chunk_generator (fun _ => false) 3 0 [[1]]).2.2 = false)
    ∧ (chunk_generator (fun _ => false) 4 0 [] =
        chunk_generator (fun _ => false) 3 1 [])
    ∧ (chunk_generator (fun _ => true) 6 0 [[1], [2]] = ([], [[1], [2]], true)) :=
  ⟨c9_amended_infinite_until_shutdown_stops_without_drain.1
      (fun _ => false) 3 0 [[1]] (fun _ => rfl),
   c9_amended_infinite_until_shutdown_stops_without_drain.2.1
      (fun _ => false) 3 0 rfl,
   c9_amended_infinite_until_shutdown_stops_without_drain.2.2
      (fun _ => true) 5 0 [[1], [2]] rfl⟩

end VRVoice
